import Mathlib

/-!
Verification of the Tennis.API proxy layer.

The Python source operates on JSON values decoded by the standard json
module (dicts, lists, strings, ints, bools, None).  We embed those values
as the inductive type JVal below and translate each function of
src/api/matches.py, src/utils/match_ids.py and src/utils/atp_h2h.py into a
Lean function over JVal.  Outbound HTTP traffic is abstracted by a
per-request outcome (status code plus parsed body, or a network-level
exception), which is the only information the Python code ever extracts
from the httpx response objects.

Modelling notes, stated once here:
* json.load maps a JSON null to Python None, and dict.get returns None for
  a missing key; both are represented by JVal.jnull, exactly matching the
  places where the source conflates the two.  Where the source uses a
  non-None default (dict.get(k, d)) the embedding keeps the distinction.
* String primitives (lower, upper, split, strip, the digit classes of the
  regular expressions) are modelled over ASCII, which covers the
  identifiers, markers and result strings these claims quantify over.
* Fractional JSON numbers and Python's bool-is-an-int aliasing do not
  occur in the payloads these claims are about and are not modelled;
  container dict keys, which would raise TypeError (unhashable) in
  Python, compare unequal here.
-/

inductive JVal where
  | jnull : JVal
  | jbool : Bool → JVal
  | jint : Int → JVal
  | jstr : String → JVal
  | jarr : List JVal → JVal
  | jobj : List (String × JVal) → JVal

/-- Python truthiness of a JSON-decoded value: None, False, 0, empty
string, empty list and empty dict are falsy, everything else truthy. -/
def truthy : JVal → Bool
  | .jnull => false
  | .jbool b => b
  | .jint n => n != 0
  | .jstr s => !s.isEmpty
  | .jarr xs => !xs.isEmpty
  | .jobj fs => !fs.isEmpty

/-- First binding of a key in an association list (field list of a JSON
object; object literals in these payloads carry distinct keys). -/
def assocFields : List (String × JVal) → String → Option JVal
  | [], _ => none
  | (k, v) :: rest, key => if k == key then some v else assocFields rest key

/-- dict.get(key) restricted to JSON objects: none when the key is missing
(the source only calls .get on values it has checked to be dicts). -/
def objGetOpt (x : JVal) (key : String) : Option JVal :=
  match x with
  | .jobj fs => assocFields fs key
  | _ => none

/-- dict.get(key) with the default None: a missing key and a stored null
both come back as jnull, exactly as both surface as None in Python. -/
def objGet (x : JVal) (key : String) : JVal :=
  (objGetOpt x key).getD .jnull

/-- dict.get(key, default) with a non-None default: the default is used
only when the key is missing, a stored null is returned as jnull. -/
def objGetD (x : JVal) (key : String) (d : JVal) : JVal :=
  (objGetOpt x key).getD d

/-- Python (a or b): a if a is truthy else b. -/
def pyOr (a b : JVal) : JVal :=
  if truthy a then a else b

/-- Python (xs or None) for a freshly built list: None when empty. -/
def listOrNull (xs : List JVal) : JVal :=
  if xs.isEmpty then .jnull else .jarr xs

/-- Python (x if isinstance(x, dict) else fallback). -/
def asDictOr (v fallback : JVal) : JVal :=
  match v with
  | .jobj fs => .jobj fs
  | _ => fallback

/-- Equality of JSON values used as dict keys.  Only hashable scalars can
be dict keys in Python; container keys would raise TypeError upstream and
simply compare unequal here. -/
def jvalKeyEq : JVal → JVal → Bool
  | .jnull, .jnull => true
  | .jbool a, .jbool b => a == b
  | .jint a, .jint b => a == b
  | .jstr a, .jstr b => a == b
  | _, _ => false

/-- ASCII lowercase of one character. -/
def asciiLower (c : Char) : Char :=
  if 65 ≤ c.toNat && c.toNat ≤ 90 then Char.ofNat (c.toNat + 32) else c

/-- ASCII uppercase of one character. -/
def asciiUpper (c : Char) : Char :=
  if 97 ≤ c.toNat && c.toNat ≤ 122 then Char.ofNat (c.toNat - 32) else c

/-- Python str.lower over the ASCII range. -/
def pyLower (s : String) : String :=
  .mk (s.toList.map asciiLower)

/-- Python str.upper over the ASCII range. -/
def pyUpper (s : String) : String :=
  .mk (s.toList.map asciiUpper)

/-- Drop leading whitespace from a character list. -/
def dropLeadingWs : List Char → List Char
  | [] => []
  | c :: cs => if c.isWhitespace then dropLeadingWs cs else c :: cs

/-- Python str.strip(): remove leading and trailing whitespace. -/
def pyStrip (s : String) : String :=
  .mk (dropLeadingWs ((dropLeadingWs s.toList.reverse).reverse))

/-- Worker for str.split() with no separator: runs of whitespace separate
tokens and produce no empty tokens. -/
def splitWsGo : List Char → List Char → List String
  | [], acc => if acc.isEmpty then [] else [String.mk acc.reverse]
  | c :: cs, acc =>
    if c.isWhitespace then
      (if acc.isEmpty then [] else [String.mk acc.reverse]) ++ splitWsGo cs []
    else splitWsGo cs (c :: acc)

/-- Python str.split() with no separator. -/
def pySplit (s : String) : List String :=
  splitWsGo s.toList []

/-- Worker for str.split(sep) with a one-character separator, keeping
empty pieces as Python does. -/
def splitCharGo (sep : Char) : List Char → List Char → List String
  | [], acc => [String.mk acc.reverse]
  | c :: cs, acc =>
    if c == sep then String.mk acc.reverse :: splitCharGo sep cs []
    else splitCharGo sep cs (c :: acc)

/-- Python path.split(".") as used by the nested getter. -/
def splitDots (s : String) : List String :=
  splitCharGo '.' s.toList []

/-- Python str.isdigit for the ASCII digits that occur in these inputs. -/
def pyIsDigit (s : String) : Bool :=
  !s.isEmpty && s.toList.all Char.isDigit

/-- Value of a list of decimal digit characters. -/
def digitsToNat (cs : List Char) : Nat :=
  cs.foldl (fun a c => a * 10 + (c.toNat - 48)) 0

/-- int(s) for a string: optional sign then decimal digits, none on
anything else (in Python a ValueError, propagated by the caller). -/
def parseIntStr (s : String) : Option Int :=
  let t := (pyStrip s).toList
  let core := match t with
    | '-' :: cs => cs
    | '+' :: cs => cs
    | cs => cs
  if core.isEmpty || !core.all Char.isDigit then none
  else
    match t with
    | '-' :: _ => some (-(digitsToNat core : Int))
    | _ => some (digitsToNat core : Int)

/-- int(v) for a JSON-decoded value; none models the ValueError/TypeError
raised on unconvertible input. -/
def pyInt : JVal → Option Int
  | .jint n => some n
  | .jbool b => some (if b then 1 else 0)
  | .jstr s => parseIntStr s
  | _ => none

mutual
/-- Python str() of a JSON-decoded value (repr for containers; string
escaping inside container reprs is not reproduced, registry Name values
are plain strings for which str is the identity). -/
def pystr : JVal → String
  | .jnull => "None"
  | .jbool true => "True"
  | .jbool false => "False"
  | .jint n => toString n
  | .jstr s => s
  | .jarr xs => "[" ++ pyreprList xs ++ "]"
  | .jobj fs => "\x7b" ++ pyreprObj fs ++ "\x7d"

/-- Python repr() of a JSON-decoded value. -/
def pyrepr : JVal → String
  | .jnull => "None"
  | .jbool true => "True"
  | .jbool false => "False"
  | .jint n => toString n
  | .jstr s => String.singleton (Char.ofNat 39) ++ s ++ String.singleton (Char.ofNat 39)
  | .jarr xs => "[" ++ pyreprList xs ++ "]"
  | .jobj fs => "\x7b" ++ pyreprObj fs ++ "\x7d"

def pyreprList : List JVal → String
  | [] => ""
  | [x] => pyrepr x
  | x :: xs => pyrepr x ++ ", " ++ pyreprList xs

def pyreprObj : List (String × JVal) → String
  | [] => ""
  | [(k, v)] => pyrepr (.jstr k) ++ ": " ++ pyrepr v
  | (k, v) :: fs => pyrepr (.jstr k) ++ ": " ++ pyrepr v ++ ", " ++ pyreprObj fs
end

/-- Membership lookup in the registry dict (keyed by tournament Id). -/
def lookupStr : List (String × JVal) → String → Option JVal
  | [], _ => none
  | (k, v) :: rest, key => if k == key then some v else lookupStr rest key

/-- The name-scan loop of resolve_tournament_id: first record whose
display name, lowercased, equals the lowercased input. -/
def findNameMatch : List (String × JVal) → String → Option String
  | [], _ => none
  | (tid, t) :: rest, lowered =>
    if pyLower (pystr (objGetD t "Name" (.jstr ""))) == lowered then some tid
    else findNameMatch rest lowered

/-- resolve_tournament_id from src/api/matches.py: exact Id match, then
case-insensitive name match, then the verbatim-digits fallback, else
none. -/
def resolve_tournament_id (tournament_id_or_name : String)
    (tournaments : List (String × JVal)) : Option String :=
  let key := tournament_id_or_name
  if (lookupStr tournaments key).isSome then some key
  else
    match findNameMatch tournaments (pyLower key) with
    | some tid => some tid
    | none => if pyIsDigit key then some key else none

/-- The 3-digit zero padded field of the f-string format 03d (wider
numbers print unpadded, as in Python). -/
def pad3 (n : Nat) : String :=
  if n < 10 then "00" ++ toString n
  else if n < 100 then "0" ++ toString n
  else toString n

/-- generate_match_ids from src/utils/match_ids.py: ms001 .. ms(D-1) for
an integer draw size D of at least 2, empty otherwise. -/
def generate_match_ids (draw_size : JVal) : List String :=
  match draw_size with
  | .jint n =>
    if n < 2 then []
    else (List.range' 1 (n - 1).toNat).map (fun i => "ms" ++ pad3 i)
  | _ => []

/-- generate_qualifier_ids from src/utils/match_ids.py: qs001 .. qs(cap)
for a positive integer cap, empty otherwise. -/
def generate_qualifier_ids (max_qualy : JVal) : List String :=
  match max_qualy with
  | .jint n =>
    if n ≤ 0 then []
    else (List.range' 1 n.toNat).map (fun i => "qs" ++ pad3 i)
  | _ => []

/-- The candidate identifiers probed for one tournament: the main draw ids
for the resolved draw size followed by MAX_QUALIFIERS = 20 qualifier
ids. -/
def candidateIds (draw_size : Int) : List String :=
  generate_match_ids (.jint draw_size) ++ generate_qualifier_ids (.jint 20)

example : generate_match_ids (.jint 4) = ["ms001", "ms002", "ms003"] := by decide
example : resolve_tournament_id "doha"
    [("580", .jobj [("Id", .jstr "580"), ("Name", .jstr "Doha")])] = some "580" := by decide
example : resolve_tournament_id "9999"
    [("580", .jobj [("Id", .jstr "580"), ("Name", .jstr "Doha")])] = some "9999" := by decide
example : resolve_tournament_id "not-a-thing"
    [("580", .jobj [("Id", .jstr "580"), ("Name", .jstr "Doha")])] = none := by decide

/-- The nested getter _get(obj, path, default) of src/api/matches.py,
after the path has been split on dots: walk the keys, returning the
default as soon as the current value is not a dict or the key lookup
yields None. -/
def getPathKeys : JVal → List String → JVal → JVal
  | obj, [], _ => obj
  | obj, key :: rest, default =>
    match obj with
    | .jobj _ =>
      match objGet obj key with
      | .jnull => default
      | v => getPathKeys v rest default
    | _ => default

/-- _get(obj, path, default) with a dotted path string. -/
def getPath (obj : JVal) (path : String) (default : JVal) : JVal :=
  getPathKeys obj (splitDots path) default

/-- _has_match_id from src/api/matches.py: the payload is a dict and
carries a truthy MatchId either under a wrapped Match dict or at top
level. -/
def hasMatchId (payload : JVal) : Bool :=
  match payload with
  | .jobj _ =>
    (match objGet payload "Match" with
     | .jobj ms => truthy (assocFields ms "MatchId" |>.getD .jnull)
     | _ => false)
    || truthy (objGet payload "MatchId")
  | _ => false

/-- Insertion into the per-side dict comprehension keyed by SetNumber: an
existing key keeps its position and takes the new value, a new key is
appended, exactly as Python dict insertion behaves. -/
def dictInsert (d : List (JVal × JVal)) (k v : JVal) : List (JVal × JVal) :=
  match d with
  | [] => [(k, v)]
  | (k0, v0) :: rest =>
    if jvalKeyEq k k0 then (k0, v) :: rest else (k0, v0) :: dictInsert rest k v

/-- dict.get(key, default) on a JVal-keyed dict. -/
def jdictGet (d : List (JVal × JVal)) (k : JVal) (default : JVal) : JVal :=
  match d with
  | [] => default
  | (k0, v0) :: rest => if jvalKeyEq k k0 then v0 else jdictGet rest k default

/-- The dict comprehension keying each side's Sets entries by SetNumber,
skipping entries that are not dicts; a later duplicate SetNumber
overwrites the earlier value. -/
def setsByNumber (sets : List JVal) : List (JVal × JVal) :=
  sets.foldl
    (fun d s => match s with
      | .jobj _ => dictInsert d (objGet s "SetNumber") s
      | _ => d)
    []

/-- Strictly sorted insertion without duplicates: inserting into the
ascending distinct list kept by sortDedup. -/
def insSorted (n : Int) : List Int → List Int
  | [] => [n]
  | m :: ms =>
    if n < m then n :: m :: ms
    else if n = m then m :: ms
    else m :: insSorted n ms

/-- sorted(s) for a set of ints: the ascending list of the distinct
elements, built by sorted insertion. -/
def sortDedup (l : List Int) : List Int :=
  l.foldl (fun acc n => insSorted n acc) []

/-- The union of the two sides' SetNumber keys, filtered to integers of at
least 1 and sorted ascending (sorted over a Python set union). -/
def validSetNumbers (d1 d2 : List (JVal × JVal)) : List Int :=
  sortDedup
    ((d1.map Prod.fst ++ d2.map Prod.fst).filterMap
      (fun k => match k with
        | .jint n => if 1 ≤ n then some n else none
        | _ => none))

/-- One emitted score entry: each side's games where that side has data
(absent sides read as None, not zero), with the tiebreak pair only when
either side carries one. -/
def mkScoreEntry (n : Int) (s1 s2 : JVal) : JVal :=
  .jobj [("set", .jint n),
         ("p1", objGet s1 "SetScore"),
         ("p2", objGet s2 "SetScore"),
         ("tiebreak",
           match objGet s1 "TieBreakScore", objGet s2 "TieBreakScore" with
           | .jnull, .jnull => .jnull
           | tb1, tb2 => .jobj [("p1", tb1), ("p2", tb2)])]

/-- The emission loop over the sorted surviving set numbers. -/
def scoreEntries (xs ys : List JVal) : List JVal :=
  let p1_by := setsByNumber xs
  let p2_by := setsByNumber ys
  (validSetNumbers p1_by p2_by).map
    (fun n => mkScoreEntry n (jdictGet p1_by (.jint n) (.jobj []))
                            (jdictGet p2_by (.jint n) (.jobj [])))

/-- Score assembly of flatten_match_data: both per-side Sets values must
be lists and at least one non-empty, else the score list stays empty. -/
def assembleScore (mtch : JVal) : List JVal :=
  match getPath mtch "PlayerTeam1.Sets" (.jarr []),
        getPath mtch "PlayerTeam2.Sets" (.jarr []) with
  | .jarr xs, .jarr ys =>
    if xs.isEmpty && ys.isEmpty then [] else scoreEntries xs ys
  | _, _ => []

/-- player_obj of flatten_match_data: a player sub-record only when the
side is a dict with a truthy PlayerId. -/
def playerObj (p : JVal) : Option JVal :=
  match p with
  | .jobj _ =>
    if truthy (objGet p "PlayerId") then
      some (.jobj [("player_id", objGet p "PlayerId"),
                   ("first_name", objGet p "PlayerFirstName"),
                   ("last_name", objGet p "PlayerLastName"),
                   ("country", objGet p "PlayerCountry")])
    else none
  | _ => none

/-- flatten_match_data from src/api/matches.py: normalize a wrapped or
legacy Hawkeye payload into the flat record; non-dict payloads yield the
empty dict. -/
def flatten_match_data (payload : JVal) : JVal :=
  match payload with
  | .jobj _ =>
    let tournament := asDictOr (objGet payload "Tournament") (.jobj [])
    let mtch := asDictOr (objGet payload "Match") payload
    let match_id := pyOr (objGet mtch "MatchId") (objGet payload "MatchId")
    let round_short := pyOr (pyOr (getPath mtch "Round.ShortName" .jnull)
                                  (objGet mtch "RoundName"))
                            (objGet mtch "Round")
    let surface := pyOr (pyOr (objGet tournament "Court") (objGet mtch "Surface"))
                        (objGet payload "Surface")
    let status := pyOr (pyOr (objGet mtch "Status") (objGet mtch "MatchStatus"))
                       (objGet payload "Status")
    let duration := pyOr (objGet mtch "MatchTimeTotal") (objGet mtch "MatchTime")
    let winner_id := pyOr (pyOr (objGet mtch "WinningPlayerId") (objGet mtch "Winner"))
                          (objGet payload "Winner")
    let p1 := pyOr (getPath mtch "PlayerTeam.Player" .jnull) (.jobj [])
    let p2 := pyOr (getPath mtch "OpponentTeam.Player" .jnull) (.jobj [])
    let players := [playerObj p1, playerObj p2].filterMap id
    let score := assembleScore mtch
    .jobj [("match_id", match_id),
           ("event_id", objGet tournament "EventId"),
           ("event_year", objGet tournament "EventYear"),
           ("event_name", objGet tournament "EventDisplayName"),
           ("tournament_name", objGet tournament "TournamentName"),
           ("city", objGet tournament "TournamentCity"),
           ("surface", surface),
           ("round", round_short),
           ("status", status),
           ("is_doubles", objGet mtch "IsDoubles"),
           ("winner_id", winner_id),
           ("players", listOrNull players),
           ("score", listOrNull score),
           ("duration", duration)]
  | _ => .jobj []

/-- Set number of one emitted score entry, read back off the record. -/
def extractSet (e : JVal) : Option Int :=
  match objGet e "set" with
  | .jint n => some n
  | _ => none

/-- The set numbers of a normalized record's score list (empty when the
score field is null or missing). -/
def scoreSetNumbers (record : JVal) : List Int :=
  match objGet record "score" with
  | .jarr entries => entries.filterMap extractSet
  | _ => []

/-- The non-completion markers that halt result-string parsing. -/
def completionMarkers : List String :=
  ["RET", "W/O", "WO", "DEF", "ABN", "BYE", "CANC"]

/-- The regular expression of atp_h2h.py for one set token: one or more
digits, optionally followed by a parenthesized tiebreak count; yields the
digit run and the optional tiebreak digits. -/
def matchSetToken (tok : String) : Option (List Char × Option (List Char)) :=
  let cs := tok.toList
  let ds := cs.takeWhile Char.isDigit
  if ds.isEmpty then none
  else
    let rest := cs.drop ds.length
    match rest with
    | [] => some (ds, none)
    | '(' :: more =>
      match more.reverse with
      | ')' :: revMid =>
        let t := revMid.reverse
        if !t.isEmpty && t.all Char.isDigit then some (ds, some t) else none
      | _ => none
    | _ => none

/-- int(digits[i]) for the single digit character at position i. -/
def digitAt (ds : List Char) (i : Nat) : Int :=
  ((ds.getD i '0').toNat - 48 : Nat)

/-- The optional tiebreak field: int(tb) when the group matched. -/
def tbJson : Option (List Char) → JVal
  | none => .jnull
  | some t => .jint (digitsToNat t)

/-- One parsed set record of parse_result_string. -/
def setEntryJson (n : Int) (ds : List Char) (tb : Option (List Char)) : JVal :=
  .jobj [("set", .jint n),
         ("p1", .jint (digitAt ds 0)),
         ("p2", .jint (digitAt ds 1)),
         ("tiebreak", tbJson tb)]

/-- The token loop of parse_result_string: a non-completion marker halts,
an unmatched or short token is skipped, an accepted token appends the next
sequentially numbered set. -/
def parseTokens : List String → Int → List JVal
  | [], _ => []
  | tok :: rest, set_num =>
    if completionMarkers.contains (pyUpper tok) then []
    else
      match matchSetToken tok with
      | none => parseTokens rest set_num
      | some (ds, tb) =>
        if ds.length < 2 then parseTokens rest set_num
        else setEntryJson (set_num + 1) ds tb :: parseTokens rest (set_num + 1)

/-- parse_result_string from src/utils/atp_h2h.py: None for a non-string
or empty input, else the parsed set list, or None when no token was
accepted. -/
def parse_result_string (result : JVal) : JVal :=
  match result with
  | .jstr s =>
    if s.isEmpty then .jnull
    else
      let out := parseTokens (pySplit (pyStrip s)) 0
      if out.isEmpty then .jnull else .jarr out
  | _ => .jnull

example : parse_result_string (.jstr "64 76(7) 63") =
    .jarr [.jobj [("set", .jint 1), ("p1", .jint 6), ("p2", .jint 4), ("tiebreak", .jnull)],
           .jobj [("set", .jint 2), ("p1", .jint 7), ("p2", .jint 6), ("tiebreak", .jint 7)],
           .jobj [("set", .jint 3), ("p1", .jint 6), ("p2", .jint 3), ("tiebreak", .jnull)]] := rfl

example : parse_result_string (.jstr "61 2 RET") =
    .jarr [.jobj [("set", .jint 1), ("p1", .jint 6), ("p2", .jint 1), ("tiebreak", .jnull)]] := rfl

/-- One upstream-native set record of flatten_h2h_matches (entries that
are not dicts would raise AttributeError upstream and do not occur in
well-formed payloads). -/
def upstreamSetEntry (s : JVal) : JVal :=
  .jobj [("set_number", objGet s "SetNumber"),
         ("player_games", objGet s "SetScore"),
         ("player_tiebreak", objGet s "TieBreakScore"),
         ("won_set", objGet s "WonSet")]

/-- One flattened head-to-head match record of flatten_h2h_matches. -/
def h2hRecord (tournament_name year surface indoor_outdoor mtch : JVal) : JVal :=
  let rnd := pyOr (objGet mtch "Round") (.jobj [])
  let round_short := match rnd with
    | .jobj _ => objGet rnd "ShortName"
    | _ => .jnull
  let result := objGet mtch "ResultString"
  let sets_from_result := if truthy result then parse_result_string result else .jnull
  let ptv := objGet mtch "PlayerTeam"
  let upstream_sets :=
    match ptv with
    | .jobj _ =>
      if truthy ptv then
        match objGet ptv "Sets" with
        | .jarr ss => .jarr (ss.map upstreamSetEntry)
        | _ => .jnull
      else .jnull
    | _ => .jnull
  .jobj [("tournament", tournament_name),
         ("year", year),
         ("round", round_short),
         ("winner", objGet mtch "Winner"),
         ("surface", surface),
         ("indoor_outdoor", indoor_outdoor),
         ("match_id", objGet mtch "MatchId"),
         ("result", result),
         ("sets", sets_from_result),
         ("player_team", objGet mtch "PlayerTeam"),
         ("opponent_team", objGet mtch "OpponentTeam"),
         ("upstream_sets", upstream_sets),
         ("match_stats_url", objGet mtch "MatchStatsUrl"),
         ("reason", objGet mtch "Reason")]

/-- Iteration over a JSON value the source expects to be a list; dicts and
strings iterate over keys and characters, none of which survive the
per-element isinstance dict checks, so they contribute nothing. -/
def iterList : JVal → List JVal
  | .jarr xs => xs
  | _ => []

/-- The per-tournament body of flatten_h2h_matches: name via the ordered
fallback chain, then one record per dict entry of the schema-dependent
match list. -/
def tournamentRecords (tournament : JVal) : List JVal :=
  match tournament with
  | .jobj _ =>
    let tournament_name := pyOr (pyOr (objGet tournament "TournamentName")
                                      (objGet tournament "EventDisplayName"))
                                (objGet tournament "EventName")
    let year := objGet tournament "EventYear"
    let surface := objGet tournament "Surface"
    let indoor_outdoor := objGet tournament "InOutdoorDisplay"
    let match_list := pyOr (pyOr (objGet tournament "MatchResults")
                                 (objGet tournament "Matches"))
                           (.jarr [])
    (iterList match_list).filterMap
      (fun m => match m with
        | .jobj _ => some (h2hRecord tournament_name year surface indoor_outdoor m)
        | _ => none)
  | _ => []

/-- flatten_h2h_matches from src/utils/atp_h2h.py: walk the two top-level
tournament sections and flatten every tournament's match list into one
list of records. -/
def flatten_h2h_matches (raw_json : JVal) : List JVal :=
  ["Tournaments", "OtherTournaments"].flatMap
    (fun sec =>
      (iterList (pyOr (objGet raw_json sec) (.jarr []))).flatMap tournamentRecords)

/-- The outcome of one outbound HTTP GET, as far as the source inspects
it: either the response arrived with a status code and a body that parsed
as JSON or not, or the request itself raised (timeout, connection
failure). -/
inductive FetchOutcome where
  | response (status : Nat) (body : Option JVal)
  | netError

/-- fetch_match from src/api/matches.py: a non-200 status yields None, a
200 body that fails JSON parsing yields None, and a network-level
exception propagates (nothing in fetch_match catches it). -/
def fetch_match (outcome : FetchOutcome) : Except Unit (Option JVal) :=
  match outcome with
  | .netError => .error ()
  | .response status body => if status != 200 then .ok none else .ok body

/-- The value fetch_match hands back when the request did not raise. -/
def outcomeData : FetchOutcome → Option JVal
  | .netError => none
  | .response status body => if status != 200 then none else body

/-- The per-candidate body of the aggregate loop: a falsy payload is
skipped, a payload without a match id is skipped, anything else is stored
raw or flattened. -/
def keepEntry (flatten : Bool) (data : Option JVal) : Option JVal :=
  match data with
  | none => none
  | some v =>
    if !truthy v then none
    else if hasMatchId v then some (if flatten then flatten_match_data v else v)
    else none

/-- The enumeration loop of get_tournament_matches over the candidate ids:
the first request that raises aborts the whole loop, everything else
accumulates the kept entries in candidate order. -/
def fetchLoop (flatten : Bool) (oracle : String → FetchOutcome) :
    List String → Except Unit (List (String × JVal))
  | [] => .ok []
  | mid :: rest =>
    match fetch_match (oracle mid) with
    | .error e => .error e
    | .ok data =>
      match fetchLoop flatten oracle rest with
      | .error e => .error e
      | .ok tail =>
        match keepEntry flatten data with
        | none => .ok tail
        | some v => .ok ((mid, v) :: tail)

/-- What a request handler run produces: an HTTPException with status and
detail, or an uncaught exception that escapes the handler (the framework
turns it into a 500), or the JSON response of the 200 path. -/
inductive EndpointError where
  | http (status : Nat) (detail : String)
  | unhandled

structure MatchesResponse where
  tournament : JVal
  tournament_id : String
  year : Int
  matches_map : List (String × JVal)

structure SingleMatchResponse where
  tournament : JVal
  tournament_id : String
  year : Int
  match_id : String
  match_data : JVal

/-- int(tournament.get("SglDrawSize", 32)) if tournament else 32; none
models the uncaught conversion error. -/
def draw_size_of (tournaments : List (String × JVal)) (tid : String) : Option Int :=
  match lookupStr tournaments tid with
  | some t => pyInt (objGetD t "SglDrawSize" (.jint 32))
  | none => some 32

/-- tournament.get("Name") if tournament else "Unknown" (a registry record
without a Name yields None here, as in the source). -/
def tournament_name_of (tournaments : List (String × JVal)) (tid : String) : JVal :=
  match lookupStr tournaments tid with
  | some t => objGet t "Name"
  | none => .jstr "Unknown"

/-- get_tournament_matches from src/api/matches.py, with the registry
passed in (the loader is outside these claims) and the upstream abstracted
by an outcome per candidate id. -/
def get_tournament_matches (tournaments : List (String × JVal)) (year : Int)
    (tournament_id : String) (flatten : Bool) (oracle : String → FetchOutcome) :
    Except EndpointError MatchesResponse :=
  match resolve_tournament_id tournament_id tournaments with
  | none => .error (.http 404 "Invalid tournament ID or name")
  | some tid =>
    match draw_size_of tournaments tid with
    | none => .error .unhandled
    | some draw_size =>
      match fetchLoop flatten oracle (candidateIds draw_size) with
      | .error _ => .error .unhandled
      | .ok matches_data =>
        .ok ⟨tournament_name_of tournaments tid, tid, year, matches_data⟩

/-- get_single_match from src/api/matches.py: resolve, fetch once, 404 on
a falsy result, else the raw or flattened payload. -/
def get_single_match (tournaments : List (String × JVal)) (year : Int)
    (tournament_id match_id : String) (flatten : Bool) (outcome : FetchOutcome) :
    Except EndpointError SingleMatchResponse :=
  match resolve_tournament_id tournament_id tournaments with
  | none => .error (.http 404 "Invalid tournament ID or name")
  | some tid =>
    match fetch_match outcome with
    | .error _ => .error .unhandled
    | .ok data =>
      match data with
      | none => .error (.http 404 "Match not found")
      | some v =>
        if !truthy v then .error (.http 404 "Match not found")
        else
          .ok ⟨objGetD ((lookupStr tournaments tid).getD (.jobj [])) "Name" (.jstr "Unknown"),
               tid, year, match_id,
               if flatten then flatten_match_data v else v⟩

/-- The anchored alphanumeric pattern of atp_h2h.py over a player code;
like the re module's dollar anchor it tolerates one trailing newline. -/
def matchesPlayerCode (s : String) : Bool :=
  let cs := s.toList
  let core := match cs.reverse with
    | '\n' :: revRest => revRest.reverse
    | _ => cs
  !core.isEmpty && core.all Char.isAlphanum

/-- fetch_head_to_head from src/utils/atp_h2h.py: validate both codes
before any outbound call, then map each upstream failure mode to its own
HTTPException. -/
def fetch_head_to_head (player1_id player2_id : String) (outcome : FetchOutcome) :
    Except EndpointError JVal :=
  if !(matchesPlayerCode player1_id && matchesPlayerCode player2_id) then
    .error (.http 400 "Player IDs must be alphanumeric ATP player codes (e.g., DH58)")
  else
    match outcome with
    | .netError => .error (.http 502 "Upstream ATP request failed")
    | .response status body =>
      if status == 404 then .error (.http 404 "Head-to-head not found")
      else if status != 200 then
        .error (.http 502 ("Upstream ATP error (status " ++ toString status ++ ")"))
      else
        match body with
        | none => .error (.http 502 "Upstream ATP returned invalid JSON")
        | some j => .ok j

theorem length_range'_own (n : Nat) : ∀ s : Nat, (List.range' s n).length = n := by
  induction n with
  | zero => intro s; rfl
  | succ n ih => intro s; simp only [List.range']; rw [List.length_cons, ih (s + 1)]

theorem get?_range'_own (n : Nat) :
    ∀ s i : Nat, i < n → (List.range' s n).get? i = some (s + i) := by
  induction n with
  | zero => intro s i h; omega
  | succ n ih =>
    intro s i h
    cases i with
    | zero => rfl
    | succ i =>
      have h2 := ih (s + 1) i (by omega)
      calc (List.range' s (n + 1)).get? (i + 1)
          = (List.range' (s + 1) n).get? i := rfl
        _ = some (s + 1 + i) := h2
        _ = some (s + (i + 1)) := by rw [show s + 1 + i = s + (i + 1) from by omega]

theorem mem_insSorted (n x : Int) : ∀ l : List Int, x ∈ insSorted n l ↔ x = n ∨ x ∈ l := by
  intro l
  induction l with
  | nil => simp [insSorted]
  | cons m ms ih =>
    by_cases h1 : n < m
    · simp [insSorted, h1]
    · by_cases h2 : n = m
      · subst h2
        simp [insSorted, h1, List.mem_cons]
      · simp [insSorted, h1, h2, ih, List.mem_cons]
        tauto

theorem pairwise_insSorted (n : Int) :
    ∀ l : List Int, l.Pairwise (· < ·) → (insSorted n l).Pairwise (· < ·) := by
  intro l
  induction l with
  | nil => intro _; simp [insSorted]
  | cons m ms ih =>
    intro hp
    rcases List.pairwise_cons.mp hp with ⟨hm, hms⟩
    by_cases h1 : n < m
    · have he : insSorted n (m :: ms) = n :: m :: ms := by simp [insSorted, h1]
      rw [he]
      refine List.pairwise_cons.mpr ⟨?_, hp⟩
      intro x hx
      rcases List.mem_cons.mp hx with h | h
      · exact h ▸ h1
      · exact lt_trans h1 (hm x h)
    · by_cases h2 : n = m
      · have he : insSorted n (m :: ms) = m :: ms := by simp [insSorted, h1, h2]
        rw [he]; exact hp
      · have hmn : m < n := by omega
        have he : insSorted n (m :: ms) = m :: insSorted n ms := by
          simp [insSorted, h1, h2]
        rw [he]
        refine List.pairwise_cons.mpr ⟨?_, ih hms⟩
        intro x hx
        rcases (mem_insSorted n x ms).mp hx with h | h
        · exact h ▸ hmn
        · exact hm x h

theorem pairwise_sortDedup (l : List Int) : (sortDedup l).Pairwise (· < ·) := by
  have : ∀ acc : List Int, acc.Pairwise (· < ·) →
      (l.foldl (fun acc n => insSorted n acc) acc).Pairwise (· < ·) := by
    induction l with
    | nil => intro acc h; simpa using h
    | cons n ns ih =>
      intro acc h
      exact ih (insSorted n acc) (pairwise_insSorted n acc h)
  simpa [sortDedup] using this [] (by simp)

theorem extractSet_mkScoreEntry (n : Int) (s1 s2 : JVal) :
    extractSet (mkScoreEntry n s1 s2) = some n := rfl

theorem filterMap_extract_scoreEntries (f g : Int → JVal) :
    ∀ ks : List Int,
      (ks.map (fun n => mkScoreEntry n (f n) (g n))).filterMap extractSet = ks := by
  intro ks
  induction ks with
  | nil => rfl
  | cons k ks ih => simp [List.filterMap_cons, extractSet_mkScoreEntry, ih]

theorem pairwise_assembleScore (mtch : JVal) :
    ((assembleScore mtch).filterMap extractSet).Pairwise (· < ·) := by
  unfold assembleScore
  split
  · split
    · simp
    · unfold scoreEntries
      rw [filterMap_extract_scoreEntries]
      exact pairwise_sortDedup _
  · simp

theorem scoreSetNumbers_flatten (payload : JVal) :
    scoreSetNumbers (flatten_match_data payload) =
      (match payload with
       | .jobj _ => assembleScore (asDictOr (objGet payload "Match") payload)
       | _ => []).filterMap extractSet := by
  cases payload with
  | jobj fs =>
    show scoreSetNumbers (flatten_match_data (.jobj fs)) = _
    simp only [flatten_match_data]
    generalize assembleScore (asDictOr (objGet (.jobj fs) "Match") (.jobj fs)) = s
    cases s with
    | nil => rfl
    | cons a as => rfl
  | jnull => rfl
  | jbool b => rfl
  | jint n => rfl
  | jstr s => rfl
  | jarr xs => rfl

theorem fetch_match_eq_outcomeData (o : FetchOutcome) (h : o ≠ .netError) :
    fetch_match o = .ok (outcomeData o) := by
  cases o with
  | netError => exact absurd rfl h
  | response status body =>
    by_cases hs : (status != 200) = true <;> simp [fetch_match, outcomeData, hs]

theorem fetchLoop_eq_ok (flatten : Bool) (oracle : String → FetchOutcome) :
    ∀ ids : List String, (∀ m ∈ ids, oracle m ≠ .netError) →
      fetchLoop flatten oracle ids =
        .ok (ids.filterMap
          (fun mid => (keepEntry flatten (outcomeData (oracle mid))).map (fun v => (mid, v)))) := by
  intro ids
  induction ids with
  | nil => intro _; rfl
  | cons mid rest ih =>
    intro h
    have hmid := h mid (List.mem_cons_self _ _)
    have hrest := ih (fun m hm => h m (List.mem_cons_of_mem _ hm))
    rw [fetchLoop, fetch_match_eq_outcomeData (oracle mid) hmid, hrest,
        List.filterMap_cons]
    cases hk : keepEntry flatten (outcomeData (oracle mid)) with
    | none => simp [hk]
    | some v => simp [hk]

theorem not_mem_fst_of_keepEntry_none (flatten : Bool) (oracle : String → FetchOutcome)
    (mid : String) (hmid : keepEntry flatten (outcomeData (oracle mid)) = none) :
    ∀ ids l, (∀ m ∈ ids, oracle m ≠ .netError) →
      fetchLoop flatten oracle ids = .ok l → mid ∉ l.map Prod.fst := by
  intro ids l hno hloop
  rw [fetchLoop_eq_ok flatten oracle ids hno] at hloop
  cases hloop
  intro hmem
  rcases List.mem_map.mp hmem with ⟨⟨m, v⟩, hpair, hfst⟩
  rcases List.mem_filterMap.mp hpair with ⟨m0, _, hsome⟩
  rcases Option.map_eq_some'.mp hsome with ⟨w, hw, hpair2⟩
  cases hpair2
  simp at hfst
  subst hfst
  rw [hmid] at hw
  cases hw

/-- The C5 example registry: one record with Id 580 and Name Doha. -/
def dohaRegistry : List (String × JVal) :=
  [("580", .jobj [("Id", .jstr "580"), ("Name", .jstr "Doha")])]

/-- The C3 example payload: duplicate set number 2 on side one (later
entry overwrites), a set number 0 and a string set number (both filtered),
and a side-two array carrying only set 1 (set 2 reads as absent). -/
def c3Payload : JVal :=
  .jobj [("Match", .jobj [
    ("MatchId", .jstr "ms001"),
    ("PlayerTeam1", .jobj [("Sets", .jarr [
        .jobj [("SetNumber", .jint 2), ("SetScore", .jint 6)],
        .jobj [("SetNumber", .jint 1), ("SetScore", .jint 7), ("TieBreakScore", .jint 7)],
        .jobj [("SetNumber", .jint 2), ("SetScore", .jint 4)],
        .jobj [("SetNumber", .jint 0), ("SetScore", .jint 9)],
        .jobj [("SetNumber", .jstr "x"), ("SetScore", .jint 9)]])]),
    ("PlayerTeam2", .jobj [("Sets", .jarr [
        .jobj [("SetNumber", .jint 1), ("SetScore", .jint 6), ("TieBreakScore", .jint 5)]])])])]

/-- C6: for an integer draw size D with D at least 2 the generator returns
exactly D-1 identifiers, the ascending 3-digit zero-padded main-draw
sequence starting at ms001; a smaller or non-integer draw size yields the
empty list instead of an error. -/
theorem claim_C6 :
    (∀ d : Int, 2 ≤ d →
      (generate_match_ids (.jint d)).length = (d - 1).toNat
      ∧ ∀ i : Nat, i < (d - 1).toNat →
          (generate_match_ids (.jint d)).get? i = some ("ms" ++ pad3 (1 + i)))
    ∧ (∀ d : Int, d < 2 → generate_match_ids (.jint d) = [])
    ∧ (∀ v : JVal, (∀ n : Int, v ≠ .jint n) → generate_match_ids v = [])
    ∧ generate_match_ids (.jint 8) =
        ["ms001", "ms002", "ms003", "ms004", "ms005", "ms006", "ms007"] := by
  refine ⟨?_, ?_, ?_, rfl⟩
  · intro d hd
    have hlt : ¬ d < 2 := by omega
    constructor
    · simp [generate_match_ids, hlt, List.length_map, length_range'_own]
    · intro i hi
      have hg := get?_range'_own ((d - 1).toNat) 1 i hi
      simp only [generate_match_ids, hlt, if_false]
      rw [List.get?_map, hg]
      rfl
  · intro d hd
    simp [generate_match_ids, hd]
  · intro v hv
    cases v with
    | jint n => exact absurd rfl (hv n)
    | jnull => rfl
    | jbool b => rfl
    | jstr s => rfl
    | jarr xs => rfl
    | jobj fs => rfl

/-- Witness for C6 at draw size 5, draw size -3 and a string input. -/
theorem claim_C6_witness :
    (generate_match_ids (.jint 5)).length = ((5 : Int) - 1).toNat
    ∧ generate_match_ids (.jint (-3)) = []
    ∧ generate_match_ids (.jstr "32") = [] :=
  ⟨(claim_C6.1 5 (by norm_num)).1,
   claim_C6.2.1 (-3) (by norm_num),
   claim_C6.2.2.1 (.jstr "32") (fun n h => JVal.noConfusion h)⟩

/-- C5: resolution tries, in order, the exact registry identifier, the
case-insensitive display-name scan, the digits-only verbatim fallback, and
otherwise fails; on the Doha example registry this gives the five claimed
results. -/
theorem claim_C5 :
    (∀ (key : String) (ts : List (String × JVal)),
      (lookupStr ts key).isSome = true → resolve_tournament_id key ts = some key)
    ∧ (∀ (key : String) (ts : List (String × JVal)) (tid : String),
        (lookupStr ts key).isSome = false →
        findNameMatch ts (pyLower key) = some tid →
        resolve_tournament_id key ts = some tid)
    ∧ (∀ (key : String) (ts : List (String × JVal)),
        (lookupStr ts key).isSome = false →
        findNameMatch ts (pyLower key) = none →
        pyIsDigit key = true → resolve_tournament_id key ts = some key)
    ∧ (∀ (key : String) (ts : List (String × JVal)),
        (lookupStr ts key).isSome = false →
        findNameMatch ts (pyLower key) = none →
        pyIsDigit key = false → resolve_tournament_id key ts = none)
    ∧ (resolve_tournament_id "580" dohaRegistry = some "580"
       ∧ resolve_tournament_id "doha" dohaRegistry = some "580"
       ∧ resolve_tournament_id "DOHA" dohaRegistry = some "580"
       ∧ resolve_tournament_id "9999" dohaRegistry = some "9999"
       ∧ resolve_tournament_id "not-a-thing" dohaRegistry = none) := by
  refine ⟨?_, ?_, ?_, ?_, rfl, rfl, rfl, rfl, rfl⟩
  · intro key ts h
    simp [resolve_tournament_id, h]
  · intro key ts tid h hn
    simp [resolve_tournament_id, h, hn]
  · intro key ts h hn hd
    simp [resolve_tournament_id, h, hn, hd]
  · intro key ts h hn hd
    simp [resolve_tournament_id, h, hn, hd]

/-- Witness for C5: each resolution rule applied at a concrete input. -/
theorem claim_C5_witness :
    resolve_tournament_id "x9" [("x9", .jobj [])] = some "x9"
    ∧ resolve_tournament_id "Rome" [("416", .jobj [("Name", .jstr "rome")])] = some "416"
    ∧ resolve_tournament_id "42" [] = some "42"
    ∧ resolve_tournament_id "nope" [] = none :=
  ⟨claim_C5.1 "x9" [("x9", .jobj [])] rfl,
   claim_C5.2.1 "Rome" [("416", .jobj [("Name", .jstr "rome")])] "416" rfl rfl,
   claim_C5.2.2.1 "42" [] rfl rfl rfl,
   claim_C5.2.2.2.1 "nope" [] rfl rfl rfl⟩

/-- C2: the result-string token loop halts at a case-insensitive
non-completion marker, skips unmatched tokens and tokens with fewer than
two digits without advancing the set counter, and turns an accepted token
into the next sequentially numbered set whose games are the first two
digits with the parenthesized tiebreak if present; the two example strings
parse exactly as claimed. -/
theorem claim_C2 :
    (∀ (tok : String) (rest : List String) (n : Int),
      completionMarkers.contains (pyUpper tok) = true →
      parseTokens (tok :: rest) n = [])
    ∧ (∀ (tok : String) (rest : List String) (n : Int),
        completionMarkers.contains (pyUpper tok) = false →
        matchSetToken tok = none →
        parseTokens (tok :: rest) n = parseTokens rest n)
    ∧ (∀ (tok : String) (rest : List String) (n : Int) (ds : List Char)
         (tb : Option (List Char)),
        completionMarkers.contains (pyUpper tok) = false →
        matchSetToken tok = some (ds, tb) → ds.length < 2 →
        parseTokens (tok :: rest) n = parseTokens rest n)
    ∧ (∀ (tok : String) (rest : List String) (n : Int) (ds : List Char)
         (tb : Option (List Char)),
        completionMarkers.contains (pyUpper tok) = false →
        matchSetToken tok = some (ds, tb) → 2 ≤ ds.length →
        parseTokens (tok :: rest) n =
          setEntryJson (n + 1) ds tb :: parseTokens rest (n + 1))
    ∧ parse_result_string (.jstr "64 76(7) 63") =
        .jarr [.jobj [("set", .jint 1), ("p1", .jint 6), ("p2", .jint 4), ("tiebreak", .jnull)],
               .jobj [("set", .jint 2), ("p1", .jint 7), ("p2", .jint 6), ("tiebreak", .jint 7)],
               .jobj [("set", .jint 3), ("p1", .jint 6), ("p2", .jint 3), ("tiebreak", .jnull)]]
    ∧ parse_result_string (.jstr "61 2 RET") =
        .jarr [.jobj [("set", .jint 1), ("p1", .jint 6), ("p2", .jint 1), ("tiebreak", .jnull)]] := by
  refine ⟨?_, ?_, ?_, ?_, rfl, rfl⟩
  · intro tok rest n h
    simp only [parseTokens, h, reduceIte]
  · intro tok rest n h hm
    simp only [parseTokens, h, hm, reduceIte]
    rfl
  · intro tok rest n ds tb h hm hlen
    simp only [parseTokens, h, hm, reduceIte]
    rw [if_pos hlen]
    rfl
  · intro tok rest n ds tb h hm hlen
    have hn2 : ¬ ds.length < 2 := by omega
    simp only [parseTokens, h, hm, reduceIte]
    rw [if_neg hn2]
    rfl

/-- Witness for C2: a lowercase marker halts, a one-digit token is
skipped, and a plain two-digit token is accepted as the next set. -/
theorem claim_C2_witness :
    parseTokens ["ret", "64"] 0 = []
    ∧ parseTokens ["7", "75"] 3 = parseTokens ["75"] 3
    ∧ parseTokens ["75"] 3 = setEntryJson 4 ['7', '5'] none :: parseTokens [] 4 :=
  ⟨claim_C2.1 "ret" ["64"] 0 rfl,
   claim_C2.2.2.1 "7" ["75"] 3 ['7'] none rfl rfl (by norm_num),
   claim_C2.2.2.2.1 "75" [] 3 ['7', '5'] none rfl rfl (by norm_num)⟩

/-- C3: every normalized record's score list has strictly ascending set
numbers with no duplicates, being the sorted union of the two sides'
positive integer set-number keys; on the example payload the duplicate set
number is overwritten by the later entry, non-positive and non-integer
keys are dropped, and the side with no data for a set number contributes
null fields, not zeros. -/
theorem claim_C3 :
    (∀ payload : JVal,
      (scoreSetNumbers (flatten_match_data payload)).Pairwise (· < ·))
    ∧ objGet (flatten_match_data c3Payload) "score" =
        .jarr [.jobj [("set", .jint 1), ("p1", .jint 7), ("p2", .jint 6),
                      ("tiebreak", .jobj [("p1", .jint 7), ("p2", .jint 5)])],
               .jobj [("set", .jint 2), ("p1", .jint 4), ("p2", .jnull),
                      ("tiebreak", .jnull)]] := by
  refine ⟨?_, rfl⟩
  intro payload
  rw [scoreSetNumbers_flatten]
  cases payload with
  | jobj fs => exact pairwise_assembleScore _
  | jnull => simp
  | jbool b => simp
  | jint n => simp
  | jstr s => simp
  | jarr xs => simp

/-- C4: the containment predicate holds exactly when the payload is a dict
carrying a truthy match identifier under the wrapped Match object or the
legacy top-level field; the wrapped example satisfies it, the
tournament-only payload does not, and a fetched truthy payload failing the
predicate never reaches the aggregate matches mapping. -/
theorem claim_C4 :
    (∀ fs : List (String × JVal),
      hasMatchId (.jobj fs) = true ↔
        ((∃ ms, assocFields fs "Match" = some (.jobj ms)
            ∧ truthy ((assocFields ms "MatchId").getD .jnull) = true)
         ∨ truthy ((assocFields fs "MatchId").getD .jnull) = true))
    ∧ (∀ p : JVal, (∀ fs, p ≠ .jobj fs) → hasMatchId p = false)
    ∧ hasMatchId (.jobj [("Match", .jobj [("MatchId", .jstr "ms001")])]) = true
    ∧ hasMatchId (.jobj [("Tournament", .jobj [("TournamentName", .jstr "Doha")])]) = false
    ∧ (∀ (flatten : Bool) (oracle : String → FetchOutcome) (ids : List String)
         (l : List (String × JVal)) (mid : String) (v : JVal),
        (∀ m ∈ ids, oracle m ≠ .netError) →
        fetchLoop flatten oracle ids = .ok l →
        oracle mid = .response 200 (some v) →
        truthy v = true → hasMatchId v = false →
        mid ∉ l.map Prod.fst) := by
  refine ⟨?_, ?_, rfl, rfl, ?_⟩
  · intro fs
    cases hM : assocFields fs "Match" with
    | none =>
      simp [hasMatchId, objGet, objGetOpt, hM]
    | some w =>
      cases w <;> simp [hasMatchId, objGet, objGetOpt, hM]
  · intro p hp
    cases p with
    | jobj fs => exact absurd rfl (hp fs)
    | jnull => rfl
    | jbool b => rfl
    | jint n => rfl
    | jstr s => rfl
    | jarr xs => rfl
  · intro flatten oracle ids l mid v hno hloop hor htr hnoid
    apply not_mem_fst_of_keepEntry_none flatten oracle mid ?_ ids l hno hloop
    rw [hor]
    simp [keepEntry, outcomeData, htr, hnoid]

/-- Witness for C4: the predicate-failing payload below is fetched with
status 200 yet excluded from the aggregate result. -/
theorem claim_C4_witness :
    "ms001" ∉ (([] : List (String × JVal)).map Prod.fst) :=
  claim_C4.2.2.2.2 false
    (fun _ => .response 200 (some (.jobj [("Tournament", .jobj [("TournamentName", .jstr "Doha")])])))
    ["ms001"] [] "ms001" (.jobj [("Tournament", .jobj [("TournamentName", .jstr "Doha")])])
    (fun m _ => fun h => FetchOutcome.noConfusion h) rfl rfl rfl rfl

/-- C7: both player codes are validated against the alphanumeric pattern
before any outbound call (the 400 is independent of the outcome), and the
four upstream failure modes map to four distinct errors: request exception
to 502, status 404 to 404, any other non-200 status to 502 with the status
in the detail, and an unparseable 200 body to 502. -/
theorem claim_C7 :
    (∀ (p1 p2 : String) (o : FetchOutcome),
      (matchesPlayerCode p1 && matchesPlayerCode p2) = false →
      fetch_head_to_head p1 p2 o =
        .error (.http 400 "Player IDs must be alphanumeric ATP player codes (e.g., DH58)"))
    ∧ (∀ p1 p2 : String, (matchesPlayerCode p1 && matchesPlayerCode p2) = true →
        fetch_head_to_head p1 p2 .netError =
          .error (.http 502 "Upstream ATP request failed"))
    ∧ (∀ (p1 p2 : String) (body : Option JVal),
        (matchesPlayerCode p1 && matchesPlayerCode p2) = true →
        fetch_head_to_head p1 p2 (.response 404 body) =
          .error (.http 404 "Head-to-head not found"))
    ∧ (∀ (p1 p2 : String) (status : Nat) (body : Option JVal),
        (matchesPlayerCode p1 && matchesPlayerCode p2) = true →
        status ≠ 404 → status ≠ 200 →
        fetch_head_to_head p1 p2 (.response status body) =
          .error (.http 502 ("Upstream ATP error (status " ++ toString status ++ ")")))
    ∧ (∀ p1 p2 : String, (matchesPlayerCode p1 && matchesPlayerCode p2) = true →
        fetch_head_to_head p1 p2 (.response 200 none) =
          .error (.http 502 "Upstream ATP returned invalid JSON"))
    ∧ (∀ (p1 p2 : String) (j : JVal),
        (matchesPlayerCode p1 && matchesPlayerCode p2) = true →
        fetch_head_to_head p1 p2 (.response 200 (some j)) = .ok j) := by
  refine ⟨?_, ?_, ?_, ?_, ?_, ?_⟩
  · intro p1 p2 o h
    simp [fetch_head_to_head, h]
  · intro p1 p2 h
    simp [fetch_head_to_head, h]
  · intro p1 p2 body h
    simp [fetch_head_to_head, h]
  · intro p1 p2 status body h h404 h200
    simp [fetch_head_to_head, h, h404, h200]
  · intro p1 p2 h
    simp [fetch_head_to_head, h]
  · intro p1 p2 j h
    simp [fetch_head_to_head, h]

/-- Witness for C7: a malformed code is rejected regardless of outcome and
each outcome maps to its own error for valid codes. -/
theorem claim_C7_witness :
    fetch_head_to_head "DH-58" "S0AG" (.response 200 (some .jnull)) =
      .error (.http 400 "Player IDs must be alphanumeric ATP player codes (e.g., DH58)")
    ∧ fetch_head_to_head "DH58" "S0AG" .netError =
      .error (.http 502 "Upstream ATP request failed")
    ∧ fetch_head_to_head "DH58" "S0AG" (.response 404 none) =
      .error (.http 404 "Head-to-head not found")
    ∧ fetch_head_to_head "DH58" "S0AG" (.response 503 none) =
      .error (.http 502 ("Upstream ATP error (status " ++ toString 503 ++ ")"))
    ∧ fetch_head_to_head "DH58" "S0AG" (.response 200 none) =
      .error (.http 502 "Upstream ATP returned invalid JSON")
    ∧ fetch_head_to_head "DH58" "S0AG" (.response 200 (some (.jobj []))) = .ok (.jobj []) :=
  ⟨claim_C7.1 "DH-58" "S0AG" (.response 200 (some .jnull)) rfl,
   claim_C7.2.1 "DH58" "S0AG" rfl,
   claim_C7.2.2.1 "DH58" "S0AG" none rfl,
   claim_C7.2.2.2.1 "DH58" "S0AG" 503 none rfl (by norm_num) (by norm_num),
   claim_C7.2.2.2.2.1 "DH58" "S0AG" rfl,
   claim_C7.2.2.2.2.2 "DH58" "S0AG" (.jobj []) rfl⟩

/-- C8: both normalizers are pure functions of the payload alone; the
embedding carries no state parameter because the source reads none, so
equal inputs give equal outputs on every run. -/
theorem claim_C8 :
    ∀ p q : JVal, p = q →
      flatten_match_data p = flatten_match_data q
      ∧ flatten_h2h_matches p = flatten_h2h_matches q := by
  intro p q h
  subst h
  exact ⟨rfl, rfl⟩

/-- Witness for C8 at a concrete payload. -/
theorem claim_C8_witness :
    flatten_match_data c3Payload = flatten_match_data c3Payload
    ∧ flatten_h2h_matches c3Payload = flatten_h2h_matches c3Payload :=
  claim_C8 c3Payload c3Payload rfl

/-- A payload with a truthy legacy match id, used by the C1 scenarios. -/
def c1Payload : JVal := .jobj [("MatchId", .jstr "ms001x")]

/-- An upstream where the very first candidate request raises (timeout or
connection failure) and every other candidate would have succeeded. -/
def c1Oracle : String → FetchOutcome :=
  fun mid => if mid == "ms001" then .netError else .response 200 (some c1Payload)

/-- An upstream with no network-level failures: ms001 found, ms002 an
upstream 500, everything else a 404. -/
def c1wOracle (mid : String) : FetchOutcome :=
  .response (if mid == "ms001" then 200 else if mid == "ms002" then 500 else 404)
            (if mid == "ms001" then some c1Payload else none)

/-- Counterexample to C1 as stated: with a timeout on candidate ms001
alone, the aggregate endpoint does not return a 200 with the remaining
matches; the exception escapes the handler and aborts the request. -/
theorem claim_C1_counterexample :
    get_tournament_matches [] 2024 "9999" false c1Oracle = .error .unhandled := rfl

/-- C1 amended: when no candidate request raises at the network level, a
non-200 status or an unparseable body on any one candidate is treated as
not found for that candidate alone, and the endpoint returns 200 with
exactly the kept matches, possibly zero; a timeout or connection failure,
however, propagates and aborts the whole aggregate request. -/
theorem claim_C1_amended :
    ∀ (ts : List (String × JVal)) (y : Int) (key : String) (fl : Bool)
      (oracle : String → FetchOutcome) (tid : String) (d : Int),
      resolve_tournament_id key ts = some tid →
      draw_size_of ts tid = some d →
      (∀ mid, oracle mid ≠ .netError) →
      get_tournament_matches ts y key fl oracle =
        .ok ⟨tournament_name_of ts tid, tid, y,
             (candidateIds d).filterMap
               (fun mid => (keepEntry fl (outcomeData (oracle mid))).map (fun v => (mid, v)))⟩ := by
  intro ts y key fl oracle tid d hres hdraw hno
  simp only [get_tournament_matches, hres, hdraw,
             fetchLoop_eq_ok fl oracle _ (fun m _ => hno m)]

/-- Witness for C1 amended: one candidate found, one upstream 500, the
rest 404; the endpoint returns 200 with exactly the found match. -/
theorem claim_C1_witness :
    get_tournament_matches [] 2024 "9999" false c1wOracle =
      .ok ⟨.jstr "Unknown", "9999", 2024, [("ms001", c1Payload)]⟩ := by
  rw [claim_C1_amended [] 2024 "9999" false c1wOracle "9999" 32 rfl rfl
      (fun mid h => FetchOutcome.noConfusion h)]
  rfl

/-- C9: a tournament identifier that resolves only through the numeric
fallback (so it is absent from the registry) is probed with the default
draw size 32: candidates ms001 through ms031 then qs001 through qs020, and
the response names the tournament Unknown. -/
theorem claim_C9 :
    (∀ (ts : List (String × JVal)) (y : Int) (key : String) (fl : Bool)
       (oracle : String → FetchOutcome) (tid : String),
      resolve_tournament_id key ts = some tid →
      lookupStr ts tid = none →
      ∀ md, fetchLoop fl oracle (candidateIds 32) = .ok md →
        get_tournament_matches ts y key fl oracle = .ok ⟨.jstr "Unknown", tid, y, md⟩)
    ∧ candidateIds 32 =
        ["ms001", "ms002", "ms003", "ms004", "ms005", "ms006", "ms007", "ms008", "ms009", "ms010", "ms011", "ms012", "ms013", "ms014", "ms015", "ms016", "ms017", "ms018", "ms019", "ms020", "ms021", "ms022", "ms023", "ms024", "ms025", "ms026", "ms027", "ms028", "ms029", "ms030", "ms031",
         "qs001", "qs002", "qs003", "qs004", "qs005", "qs006", "qs007", "qs008", "qs009", "qs010", "qs011", "qs012", "qs013", "qs014", "qs015", "qs016", "qs017", "qs018", "qs019", "qs020"] := by
  refine ⟨?_, rfl⟩
  intro ts y key fl oracle tid hres hlook md hmd
  have hdraw : draw_size_of ts tid = some 32 := by simp [draw_size_of, hlook]
  have hname : tournament_name_of ts tid = .jstr "Unknown" := by
    simp [tournament_name_of, hlook]
  simp only [get_tournament_matches, hres, hdraw, hmd, hname]

/-- An upstream that answers every candidate with a 404. -/
def missOracle : String → FetchOutcome := fun _ => .response 404 none

/-- Witness for C9: an unregistered numeric id with an all-404 upstream
yields the Unknown tournament and an empty matches mapping. -/
theorem claim_C9_witness :
    get_tournament_matches [] 2024 "9999" false missOracle =
      .ok ⟨.jstr "Unknown", "9999", 2024, []⟩ :=
  claim_C9.1 [] 2024 "9999" false missOracle "9999" rfl rfl [] rfl

/-- C10: a 200 response whose parsed body is null or an empty dict, or
whose match identifier field is the empty string, is not a match: the
aggregate loop omits that candidate, and the single-match endpoint turns
an empty or null body into a 404 rather than a 200. -/
theorem claim_C10 :
    (∀ (fl : Bool) (oracle : String → FetchOutcome) (ids : List String)
       (l : List (String × JVal)) (mid : String),
      (∀ m ∈ ids, oracle m ≠ .netError) →
      fetchLoop fl oracle ids = .ok l →
      (oracle mid = .response 200 (some .jnull)
       ∨ oracle mid = .response 200 (some (.jobj []))
       ∨ oracle mid = .response 200 (some (.jobj [("MatchId", .jstr "")]))
       ∨ oracle mid = .response 200 (some (.jobj [("Match", .jobj [("MatchId", .jstr "")])]))) →
      mid ∉ l.map Prod.fst)
    ∧ (∀ (ts : List (String × JVal)) (y : Int) (key mid : String) (fl : Bool) (tid : String),
        resolve_tournament_id key ts = some tid →
        get_single_match ts y key mid fl (.response 200 (some .jnull)) =
          .error (.http 404 "Match not found")
        ∧ get_single_match ts y key mid fl (.response 200 (some (.jobj []))) =
          .error (.http 404 "Match not found")
        ∧ get_single_match ts y key mid fl (.response 200 none) =
          .error (.http 404 "Match not found")) := by
  constructor
  · intro fl oracle ids l mid hno hloop hor
    apply not_mem_fst_of_keepEntry_none fl oracle mid ?_ ids l hno hloop
    rcases hor with h | h | h | h <;> rw [h] <;> rfl
  · intro ts y key mid fl tid hres
    refine ⟨?_, ?_, ?_⟩ <;> simp only [get_single_match] <;> rw [hres] <;> rfl

/-- Witness for C10: a null 200 body is dropped from the aggregate and
404s on the single-match endpoint. -/
theorem claim_C10_witness :
    ("ms001" ∉ (([] : List (String × JVal)).map Prod.fst))
    ∧ get_single_match [] 2024 "9999" "ms001" false (.response 200 (some .jnull)) =
        .error (.http 404 "Match not found") :=
  ⟨claim_C10.1 false (fun _ => .response 200 (some .jnull)) ["ms001"] [] "ms001"
     (fun m _ => fun h => FetchOutcome.noConfusion h) rfl (Or.inl rfl),
   (claim_C10.2 [] 2024 "9999" "ms001" false "9999" rfl).1⟩
